import Mathlib

/-!
Verification development for the Self-Mastery backend.

The backend has two logical components:
* a schema registry (`schemas.py`): one Pydantic model per record kind,
  validated at the API boundary, applying defaults for omitted optional
  fields, checking enumerated fields against fixed value sets and numeric
  fields against declared bounds;
* a coach-plan synthesizer (`main.py`, `generate_coach_plan`): a rule-based
  computation of a `focus` tag list plus a fixed action schedule.

Modelling conventions: Python `float` is modelled as `ℚ`, Python `int` as
`ℤ`, Python `str` as `String`, `Optional[τ]` record fields as `Option τ`,
`datetime` values as opaque strings, and open `dict` fields as untyped
JSON-like objects.  An incoming payload is modelled as a structure whose
every field is optional (`none` = field absent from the JSON body);
validation returns `none` for a `ValidationError` and `some record`
on success.
-/

namespace SelfMastery

/-- Untyped JSON-like values, standing for the contents of the open
Python `dict` / `List[dict]` fields that the schemas leave unvalidated. -/
inductive JValue where
  | null
  | boolVal (b : Bool)
  | numVal (q : ℚ)
  | strVal (s : String)
  | arrVal (elems : List JValue)
  | objVal (fields : List (String × JValue))

/-- A Python dict with string keys (open schema field). -/
abbrev JObject := List (String × JValue)

/-! ## Record types (schemas.py) -/

/-- `Profile` model (schemas.py lines 14-22). -/
structure Profile where
  user_id : String
  name : String
  age_group : String
  goals : List String
  discipline_score : ℚ
  theme : String
  created_at : Option String
  updated_at : Option String

/-- `Preferences` model (schemas.py lines 24-34). -/
structure Preferences where
  user_id : String
  theme_color : String
  glow_intensity : ℚ
  card_opacity : ℚ
  font_family : String
  minimal_mode : Bool
  notifications : Bool
  backup_enabled : Bool
  created_at : Option String
  updated_at : Option String

/-- `Habit` model (schemas.py lines 37-45). -/
structure Habit where
  user_id : String
  name : String
  icon : String
  glow_color : String
  schedule : List String
  streak : ℤ
  analytics : JObject
  archived : Bool

/-- `Routine` model (schemas.py lines 47-52). -/
structure Routine where
  user_id : String
  period : String
  title : String
  tasks : List JObject
  animated : Bool

/-- `Task` model (schemas.py lines 55-62). -/
structure Task where
  user_id : String
  title : String
  notes : Option String
  due_date : Option String
  status : String
  pomodoro_minutes : Option ℤ
  order : ℤ

/-- `JournalEntry` model (schemas.py lines 65-70). -/
structure JournalEntry where
  user_id : String
  date : String
  template : String
  content : String
  locked : Bool

/-- `Mood` model (schemas.py lines 72-76). -/
structure Mood where
  user_id : String
  date : String
  mood : String
  reason : Option String

/-- `MoneyRecord` model (schemas.py lines 79-84). -/
structure MoneyRecord where
  user_id : String
  date : String
  type : String
  amount : ℚ
  note : Option String

/-- `SavingsGoal` model (schemas.py lines 86-90). -/
structure SavingsGoal where
  user_id : String
  name : String
  target : ℚ
  progress : ℚ

/-- `FitnessMetric` model (schemas.py lines 93-101). -/
structure FitnessMetric where
  user_id : String
  date : String
  weight : Option ℚ
  steps : Option ℤ
  hydration_liters : Option ℚ
  skincare : List String
  gym_routine : List JObject
  checklist : List JObject

/-- `Challenge` model (schemas.py lines 104-110). -/
structure Challenge where
  user_id : Option String
  slug : String
  title : String
  days : ℤ
  category : String
  description : String

/-- `CoachPlan` model (schemas.py lines 113-118). -/
structure CoachPlan where
  user_id : String
  date : String
  summary : String
  focus : List String
  actions : List JObject

/-! ## Enumerated value sets (the `Literal[...]` types of schemas.py) -/

/-- `Literal["teen", "young_adult", "adult", "senior"]` (Profile.age_group). -/
def ageGroupValues : List String := ["teen", "young_adult", "adult", "senior"]

/-- `Literal["morning", "afternoon", "night"]` (Routine.period). -/
def periodValues : List String := ["morning", "afternoon", "night"]

/-- `Literal["todo", "in_progress", "done"]` (Task.status). -/
def statusValues : List String := ["todo", "in_progress", "done"]

/-- `Literal["gratitude", "reflection", "ideas", "free"]` (JournalEntry.template). -/
def templateValues : List String := ["gratitude", "reflection", "ideas", "free"]

/-- `Literal["ecstatic", "happy", "calm", "neutral", "stressed", "sad"]` (Mood.mood). -/
def moodValues : List String := ["ecstatic", "happy", "calm", "neutral", "stressed", "sad"]

/-- `Literal["income", "expense", "saving"]` (MoneyRecord.type). -/
def typeValues : List String := ["income", "expense", "saving"]

/-- `Literal["discipline", "glowup", "money"]` (Challenge.category). -/
def categoryValues : List String := ["discipline", "glowup", "money"]

/-! ## Payloads: untyped request bodies.

Every field is wrapped in `Option`; `none` means the field is absent from
the JSON body.  `Task.pomodoro_minutes` is declared `Optional[int] = 25`,
so its payload field is `Option (Option ℤ)`: absent, explicit null, or an
integer. -/

structure ProfilePayload where
  user_id : Option String
  name : Option String
  age_group : Option String
  goals : Option (List String)
  discipline_score : Option ℚ
  theme : Option String
  created_at : Option String
  updated_at : Option String

structure PreferencesPayload where
  user_id : Option String
  theme_color : Option String
  glow_intensity : Option ℚ
  card_opacity : Option ℚ
  font_family : Option String
  minimal_mode : Option Bool
  notifications : Option Bool
  backup_enabled : Option Bool
  created_at : Option String
  updated_at : Option String

structure HabitPayload where
  user_id : Option String
  name : Option String
  icon : Option String
  glow_color : Option String
  schedule : Option (List String)
  streak : Option ℤ
  analytics : Option JObject
  archived : Option Bool

structure RoutinePayload where
  user_id : Option String
  period : Option String
  title : Option String
  tasks : Option (List JObject)
  animated : Option Bool

structure TaskPayload where
  user_id : Option String
  title : Option String
  notes : Option String
  due_date : Option String
  status : Option String
  pomodoro_minutes : Option (Option ℤ)
  order : Option ℤ

structure JournalEntryPayload where
  user_id : Option String
  date : Option String
  template : Option String
  content : Option String
  locked : Option Bool

structure MoodPayload where
  user_id : Option String
  date : Option String
  mood : Option String
  reason : Option String

structure MoneyRecordPayload where
  user_id : Option String
  date : Option String
  type : Option String
  amount : Option ℚ
  note : Option String

structure SavingsGoalPayload where
  user_id : Option String
  name : Option String
  target : Option ℚ
  progress : Option ℚ

structure FitnessMetricPayload where
  user_id : Option String
  date : Option String
  weight : Option ℚ
  steps : Option ℤ
  hydration_liters : Option ℚ
  skincare : Option (List String)
  gym_routine : Option (List JObject)
  checklist : Option (List JObject)

structure ChallengePayload where
  user_id : Option String
  slug : Option String
  title : Option String
  days : Option ℤ
  category : Option String
  description : Option String

structure CoachPlanPayload where
  user_id : Option String
  date : Option String
  summary : Option String
  focus : Option (List String)
  actions : Option (List JObject)

/-! ## Validation (the API-boundary checks of the Pydantic models).

Each validator checks presence of mandatory fields, checks enumerated
fields against their fixed value set, checks bounded numeric fields
against their declared bounds, and applies the documented default for
every omitted optional field.  `none` models a `ValidationError`. -/

def validateProfile (p : ProfilePayload) : Option Profile :=
  p.user_id.bind fun user_id =>
  p.name.bind fun name =>
  p.age_group.bind fun age_group =>
  if ageGroupValues.contains age_group then
    some { user_id := user_id, name := name, age_group := age_group,
           goals := p.goals.getD [],
           discipline_score := p.discipline_score.getD 0,
           theme := p.theme.getD "neon-blue",
           created_at := p.created_at, updated_at := p.updated_at }
  else none

def validatePreferences (p : PreferencesPayload) : Option Preferences :=
  p.user_id.bind fun user_id =>
  let glow_intensity := p.glow_intensity.getD (6 / 10)
  let card_opacity := p.card_opacity.getD (2 / 10)
  if 0 ≤ glow_intensity ∧ glow_intensity ≤ 1 ∧ 0 ≤ card_opacity ∧ card_opacity ≤ 1 then
    some { user_id := user_id,
           theme_color := p.theme_color.getD "#00E5FF",
           glow_intensity := glow_intensity, card_opacity := card_opacity,
           font_family := p.font_family.getD "Inter",
           minimal_mode := p.minimal_mode.getD false,
           notifications := p.notifications.getD true,
           backup_enabled := p.backup_enabled.getD false,
           created_at := p.created_at, updated_at := p.updated_at }
  else none

def validateHabit (p : HabitPayload) : Option Habit :=
  p.user_id.bind fun user_id =>
  p.name.bind fun name =>
  some { user_id := user_id, name := name,
         icon := p.icon.getD "Star",
         glow_color := p.glow_color.getD "#7C3AED",
         schedule := p.schedule.getD [],
         streak := p.streak.getD 0,
         analytics := p.analytics.getD [],
         archived := p.archived.getD false }

def validateRoutine (p : RoutinePayload) : Option Routine :=
  p.user_id.bind fun user_id =>
  p.period.bind fun period =>
  p.title.bind fun title =>
  if periodValues.contains period then
    some { user_id := user_id, period := period, title := title,
           tasks := p.tasks.getD [],
           animated := p.animated.getD true }
  else none

def validateTask (p : TaskPayload) : Option Task :=
  p.user_id.bind fun user_id =>
  p.title.bind fun title =>
  let status := p.status.getD "todo"
  if statusValues.contains status then
    some { user_id := user_id, title := title,
           notes := p.notes, due_date := p.due_date,
           status := status,
           pomodoro_minutes := p.pomodoro_minutes.getD (some 25),
           order := p.order.getD 0 }
  else none

def validateJournalEntry (p : JournalEntryPayload) : Option JournalEntry :=
  p.user_id.bind fun user_id =>
  p.date.bind fun date =>
  p.content.bind fun content =>
  let template := p.template.getD "free"
  if templateValues.contains template then
    some { user_id := user_id, date := date, template := template,
           content := content, locked := p.locked.getD false }
  else none

def validateMood (p : MoodPayload) : Option Mood :=
  p.user_id.bind fun user_id =>
  p.date.bind fun date =>
  p.mood.bind fun mood =>
  if moodValues.contains mood then
    some { user_id := user_id, date := date, mood := mood, reason := p.reason }
  else none

def validateMoneyRecord (p : MoneyRecordPayload) : Option MoneyRecord :=
  p.user_id.bind fun user_id =>
  p.date.bind fun date =>
  p.type.bind fun type =>
  p.amount.bind fun amount =>
  if typeValues.contains type then
    some { user_id := user_id, date := date, type := type,
           amount := amount, note := p.note }
  else none

def validateSavingsGoal (p : SavingsGoalPayload) : Option SavingsGoal :=
  p.user_id.bind fun user_id =>
  p.name.bind fun name =>
  p.target.bind fun target =>
  some { user_id := user_id, name := name, target := target,
         progress := p.progress.getD 0 }

def validateFitnessMetric (p : FitnessMetricPayload) : Option FitnessMetric :=
  p.user_id.bind fun user_id =>
  p.date.bind fun date =>
  some { user_id := user_id, date := date,
         weight := p.weight, steps := p.steps,
         hydration_liters := p.hydration_liters,
         skincare := p.skincare.getD [],
         gym_routine := p.gym_routine.getD [],
         checklist := p.checklist.getD [] }

def validateChallenge (p : ChallengePayload) : Option Challenge :=
  p.slug.bind fun slug =>
  p.title.bind fun title =>
  p.days.bind fun days =>
  p.category.bind fun category =>
  p.description.bind fun description =>
  if categoryValues.contains category then
    some { user_id := p.user_id, slug := slug, title := title, days := days,
           category := category, description := description }
  else none

def validateCoachPlan (p : CoachPlanPayload) : Option CoachPlan :=
  p.user_id.bind fun user_id =>
  p.date.bind fun date =>
  p.summary.bind fun summary =>
  some { user_id := user_id, date := date, summary := summary,
         focus := p.focus.getD [],
         actions := p.actions.getD [] }

/-! ## Coach Plan Synthesizer (main.py, `generate_coach_plan`, lines 200-225)

The endpoint reads the user's habit, routine, task and mood collections,
computes the `focus` list by the three rules of lines 209-217, and builds a
`CoachPlan` with a fixed `actions` schedule and a fixed `summary`.  The
clock reading (`datetime.now().strftime("%Y-%m-%d")`) is passed in as the
`today` parameter. -/

/-- The focus-list computation of main.py lines 209-217. -/
def coachFocus (mood : Option String) (numHabits numTasks : Nat) : List String :=
  let focus : List String := []
  let focus := if mood = some "stressed" ∨ mood = some "sad"
    then focus ++ ["short wins", "breathing", "walk"] else focus
  let focus := if numTasks > 5 then focus ++ ["prioritize top 3"] else focus
  let focus := if numHabits < 3 then focus ++ ["add a keystone habit"] else focus
  if focus = [] then ["consistency", "deep work", "hydration"] else focus

/-- The fixed action schedule of main.py lines 219-223. -/
def coachActions : List JObject :=
  [ [("title", JValue.strVal "10-min warmup"), ("time", JValue.strVal "05:15")],
    [("title", JValue.strVal "Deep work block"), ("time", JValue.strVal "06:00")],
    [("title", JValue.strVal "Move + hydrate"), ("time", JValue.strVal "08:00")] ]

/-- `POST /coach/plan` (main.py lines 200-225).  `habits`, `routines`,
`tasks`, `moods` are the stored documents read for the user; `today` is
the clock reading.  `recent_moods` (the Python slice `[-7:]`) is computed
as in the source but never consulted afterwards. -/
def generate_coach_plan (user_id : String) (mood : Option String) (today : String)
    (habits : List Habit) (routines : List Routine) (tasks : List Task)
    (moods : List Mood) : CoachPlan :=
  let _recent_moods : List Mood := moods.drop (moods.length - 7)
  { user_id := user_id
    date := today
    summary := "Personalized plan generated."
    focus := coachFocus mood habits.length tasks.length
    actions := coachActions }

/-- Spec-side restatement of the focus rules, for the refinement in C1:
each rule independently contributes a tag group, the groups are
concatenated in rule order, and an empty concatenation is replaced by the
fixed fallback.  Written from the claim wording, to be compared with
`coachFocus` (which is translated from the source). -/
def focusRulesSpec (mood : Option String) (numHabits numTasks : Nat) : List String :=
  let rule1 := if mood = some "stressed" ∨ mood = some "sad"
    then ["short wins", "breathing", "walk"] else []
  let rule2 := if numTasks > 5 then ["prioritize top 3"] else []
  let rule3 := if numHabits < 3 then ["add a keystone habit"] else []
  let concatenated := rule1 ++ rule2 ++ rule3
  if concatenated = [] then ["consistency", "deep work", "hydration"] else concatenated

/-! ## Theorems about the Coach Plan Synthesizer -/

/-- A sample task record, used to instantiate universally quantified
statements at concrete inputs. -/
def exTask : Task :=
  { user_id := "u", title := "t", notes := none, due_date := none,
    status := "todo", pomodoro_minutes := some 25, order := 0 }

/-- A sample habit record. -/
def exHabit : Habit :=
  { user_id := "u", name := "h", icon := "Star", glow_color := "#7C3AED",
    schedule := [], streak := 0, analytics := [], archived := false }

/-- A sample mood record. -/
def exMood : Mood :=
  { user_id := "u", date := "2026-01-01", mood := "calm", reason := none }

/-- C1: the focus list is the concatenation, in fixed rule order, of the
mood rule's tags, the task-count rule's tag and the habit-count rule's
tag, the empty concatenation being replaced by the fixed fallback; in
particular mood "sad" with 0 habits and 6 tasks yields all three rules'
tags in rule order, and no mood with 3 habits and 5 tasks yields the
fallback. -/
theorem coachFocus_rules_and_fallback :
    (∀ (mood : Option String) (numHabits numTasks : Nat),
        coachFocus mood numHabits numTasks = focusRulesSpec mood numHabits numTasks)
    ∧ (∀ (uid today : String) (habits : List Habit) (routines : List Routine)
          (tasks : List Task) (moods : List Mood),
        habits.length = 0 → tasks.length = 6 →
        (generate_coach_plan uid (some "sad") today habits routines tasks moods).focus =
          ["short wins", "breathing", "walk", "prioritize top 3", "add a keystone habit"])
    ∧ (∀ (uid today : String) (habits : List Habit) (routines : List Routine)
          (tasks : List Task) (moods : List Mood),
        habits.length = 3 → tasks.length = 5 →
        (generate_coach_plan uid none today habits routines tasks moods).focus =
          ["consistency", "deep work", "hydration"]) := by
  refine ⟨?_, ?_, ?_⟩
  · intro mood numHabits numTasks
    unfold coachFocus focusRulesSpec
    by_cases h1 : mood = some "stressed" ∨ mood = some "sad" <;>
      by_cases h2 : numTasks > 5 <;>
        by_cases h3 : numHabits < 3 <;>
          simp [h1, h2, h3]
  · intro uid today habits routines tasks moods hh ht
    show coachFocus (some "sad") habits.length tasks.length = _
    rw [hh, ht]
    decide
  · intro uid today habits routines tasks moods hh ht
    show coachFocus none habits.length tasks.length = _
    rw [hh, ht]
    decide

/-- Witness for C1 at concrete inputs: 0 habits and 6 tasks for the
stress case, 3 habits and 5 tasks for the fallback case. -/
theorem coachFocus_rules_and_fallback_witness :
    (([] : List Habit).length = 0 ∧ (List.replicate 6 exTask).length = 6 ∧
      (generate_coach_plan "u" (some "sad") "2026-01-01" [] [] (List.replicate 6 exTask) []).focus =
        ["short wins", "breathing", "walk", "prioritize top 3", "add a keystone habit"])
    ∧ ((List.replicate 3 exHabit).length = 3 ∧ (List.replicate 5 exTask).length = 5 ∧
      (generate_coach_plan "u" none "2026-01-01" (List.replicate 3 exHabit) [] (List.replicate 5 exTask) []).focus =
        ["consistency", "deep work", "hydration"]) :=
  ⟨⟨rfl, rfl, coachFocus_rules_and_fallback.2.1 "u" "2026-01-01" [] []
      (List.replicate 6 exTask) [] rfl rfl⟩,
   ⟨rfl, rfl, coachFocus_rules_and_fallback.2.2 "u" "2026-01-01"
      (List.replicate 3 exHabit) [] (List.replicate 5 exTask) [] rfl rfl⟩⟩

/-- C2: every generated plan carries the fixed three-entry action
schedule and the fixed summary string, independent of all inputs. -/
theorem coachPlan_fixed_actions_and_summary :
    ∀ (uid : String) (mood : Option String) (today : String)
      (habits : List Habit) (routines : List Routine) (tasks : List Task)
      (moods : List Mood),
      (generate_coach_plan uid mood today habits routines tasks moods).actions =
        [ [("title", JValue.strVal "10-min warmup"), ("time", JValue.strVal "05:15")],
          [("title", JValue.strVal "Deep work block"), ("time", JValue.strVal "06:00")],
          [("title", JValue.strVal "Move + hydrate"), ("time", JValue.strVal "08:00")] ]
      ∧ (generate_coach_plan uid mood today habits routines tasks moods).summary =
          "Personalized plan generated." := by
  intro uid mood today habits routines tasks moods
  exact ⟨rfl, rfl⟩

/-- C7: the stored Mood records are read but never consulted: two runs
differing only in the stored moods produce the same focus, actions and
summary. -/
theorem coachPlan_independent_of_stored_moods :
    ∀ (uid : String) (mood : Option String) (today : String)
      (habits : List Habit) (routines : List Routine) (tasks : List Task)
      (moods1 moods2 : List Mood),
      (generate_coach_plan uid mood today habits routines tasks moods1).focus =
        (generate_coach_plan uid mood today habits routines tasks moods2).focus
      ∧ (generate_coach_plan uid mood today habits routines tasks moods1).actions =
        (generate_coach_plan uid mood today habits routines tasks moods2).actions
      ∧ (generate_coach_plan uid mood today habits routines tasks moods1).summary =
        (generate_coach_plan uid mood today habits routines tasks moods2).summary := by
  intro uid mood today habits routines tasks moods1 moods2
  exact ⟨rfl, rfl, rfl⟩

/-- C8: the synthesizer is deterministic in the mood hint, the habit
count, the task count and the clock reading: two runs agreeing on those
produce the same focus, actions and summary. -/
theorem coachPlan_deterministic :
    ∀ (uid1 uid2 : String) (mood : Option String) (today : String)
      (habits1 habits2 : List Habit) (routines1 routines2 : List Routine)
      (tasks1 tasks2 : List Task) (moods1 moods2 : List Mood),
      habits1.length = habits2.length → tasks1.length = tasks2.length →
      (generate_coach_plan uid1 mood today habits1 routines1 tasks1 moods1).focus =
        (generate_coach_plan uid2 mood today habits2 routines2 tasks2 moods2).focus
      ∧ (generate_coach_plan uid1 mood today habits1 routines1 tasks1 moods1).actions =
        (generate_coach_plan uid2 mood today habits2 routines2 tasks2 moods2).actions
      ∧ (generate_coach_plan uid1 mood today habits1 routines1 tasks1 moods1).summary =
        (generate_coach_plan uid2 mood today habits2 routines2 tasks2 moods2).summary := by
  intro uid1 uid2 mood today habits1 habits2 routines1 routines2 tasks1 tasks2
    moods1 moods2 hh ht
  refine ⟨?_, rfl, rfl⟩
  show coachFocus mood habits1.length tasks1.length =
    coachFocus mood habits2.length tasks2.length
  rw [hh, ht]

/-- Witness for C8: two runs with different user ids, routines and moods
but equal habit and task counts. -/
theorem coachPlan_deterministic_witness :
    ([exHabit].length = ([exHabit] : List Habit).length ∧
      ([exTask] : List Task).length = [exTask].length) ∧
    ((generate_coach_plan "a" (some "sad") "2026-01-01" [exHabit] [] [exTask] []).focus =
      (generate_coach_plan "b" (some "sad") "2026-01-01" [exHabit] [] [exTask] [exMood]).focus
    ∧ (generate_coach_plan "a" (some "sad") "2026-01-01" [exHabit] [] [exTask] []).actions =
      (generate_coach_plan "b" (some "sad") "2026-01-01" [exHabit] [] [exTask] [exMood]).actions
    ∧ (generate_coach_plan "a" (some "sad") "2026-01-01" [exHabit] [] [exTask] []).summary =
      (generate_coach_plan "b" (some "sad") "2026-01-01" [exHabit] [] [exTask] [exMood]).summary) :=
  ⟨⟨rfl, rfl⟩,
   coachPlan_deterministic "a" "b" (some "sad") "2026-01-01" [exHabit] [exHabit]
     [] [] [exTask] [exTask] [] [exMood] rfl rfl⟩

/-- C9: the generated focus list is never empty and never holds more
than 5 tags. -/
theorem coachPlan_focus_nonempty_le_five :
    ∀ (uid : String) (mood : Option String) (today : String)
      (habits : List Habit) (routines : List Routine) (tasks : List Task)
      (moods : List Mood),
      (generate_coach_plan uid mood today habits routines tasks moods).focus ≠ []
      ∧ (generate_coach_plan uid mood today habits routines tasks moods).focus.length ≤ 5 := by
  intro uid mood today habits routines tasks moods
  show coachFocus mood habits.length tasks.length ≠ []
    ∧ (coachFocus mood habits.length tasks.length).length ≤ 5
  unfold coachFocus
  by_cases h1 : mood = some "stressed" ∨ mood = some "sad" <;>
    by_cases h2 : tasks.length > 5 <;>
      by_cases h3 : habits.length < 3 <;>
        simp [h1, h2, h3]

/-- C10: the mood query parameter is not validated: any string other
than exactly "stressed" or "sad" produces the very plan produced with no
mood supplied. -/
theorem coachPlan_mood_not_validated :
    ∀ (s : String), s ≠ "stressed" → s ≠ "sad" →
    ∀ (uid today : String) (habits : List Habit) (routines : List Routine)
      (tasks : List Task) (moods : List Mood),
      generate_coach_plan uid (some s) today habits routines tasks moods =
        generate_coach_plan uid none today habits routines tasks moods := by
  intro s hs1 hs2 uid today habits routines tasks moods
  have hfocus : coachFocus (some s) habits.length tasks.length =
      coachFocus none habits.length tasks.length := by
    unfold coachFocus
    simp [hs1, hs2]
  show CoachPlan.mk uid today "Personalized plan generated."
      (coachFocus (some s) habits.length tasks.length) coachActions =
    CoachPlan.mk uid today "Personalized plan generated."
      (coachFocus none habits.length tasks.length) coachActions
  rw [hfocus]

/-- Witness for C10 at the differently-cased mood value "Sad". -/
theorem coachPlan_mood_not_validated_witness :
    ("Sad" ≠ "stressed" ∧ "Sad" ≠ "sad") ∧
    generate_coach_plan "u" (some "Sad") "2026-01-01" [exHabit] [] [exTask] [] =
      generate_coach_plan "u" none "2026-01-01" [exHabit] [] [exTask] [] :=
  ⟨⟨by decide, by decide⟩,
   coachPlan_mood_not_validated "Sad" (by decide) (by decide) "u" "2026-01-01"
     [exHabit] [] [exTask] []⟩

/-! ## Validation lemmas: the `user_id` field -/

lemma validateProfile_requires_userId (p : ProfilePayload) (h : p.user_id = none) :
    validateProfile p = none := by
  unfold validateProfile; rw [h]; rfl

lemma validatePreferences_requires_userId (p : PreferencesPayload) (h : p.user_id = none) :
    validatePreferences p = none := by
  unfold validatePreferences; rw [h]; rfl

lemma validateHabit_requires_userId (p : HabitPayload) (h : p.user_id = none) :
    validateHabit p = none := by
  unfold validateHabit; rw [h]; rfl

lemma validateRoutine_requires_userId (p : RoutinePayload) (h : p.user_id = none) :
    validateRoutine p = none := by
  unfold validateRoutine; rw [h]; rfl

lemma validateTask_requires_userId (p : TaskPayload) (h : p.user_id = none) :
    validateTask p = none := by
  unfold validateTask; rw [h]; rfl

lemma validateJournalEntry_requires_userId (p : JournalEntryPayload) (h : p.user_id = none) :
    validateJournalEntry p = none := by
  unfold validateJournalEntry; rw [h]; rfl

lemma validateMood_requires_userId (p : MoodPayload) (h : p.user_id = none) :
    validateMood p = none := by
  unfold validateMood; rw [h]; rfl

lemma validateMoneyRecord_requires_userId (p : MoneyRecordPayload) (h : p.user_id = none) :
    validateMoneyRecord p = none := by
  unfold validateMoneyRecord; rw [h]; rfl

lemma validateSavingsGoal_requires_userId (p : SavingsGoalPayload) (h : p.user_id = none) :
    validateSavingsGoal p = none := by
  unfold validateSavingsGoal; rw [h]; rfl

lemma validateFitnessMetric_requires_userId (p : FitnessMetricPayload) (h : p.user_id = none) :
    validateFitnessMetric p = none := by
  unfold validateFitnessMetric; rw [h]; rfl

lemma validateCoachPlan_requires_userId (p : CoachPlanPayload) (h : p.user_id = none) :
    validateCoachPlan p = none := by
  unfold validateCoachPlan; rw [h]; rfl

/-! ## Validation lemmas: enumerated fields -/

lemma validateProfile_rejects_bad_ageGroup (p : ProfilePayload) (s : String)
    (hf : p.age_group = some s) (hs : ageGroupValues.contains s = false) :
    validateProfile p = none := by
  obtain ⟨u, n, a, g, d, t, c, up⟩ := p
  subst hf
  cases u with
  | none => rfl
  | some u =>
    cases n with
    | none => rfl
    | some n => (simp [validateProfile]; simpa using hs)

lemma validateRoutine_rejects_bad_period (p : RoutinePayload) (s : String)
    (hf : p.period = some s) (hs : periodValues.contains s = false) :
    validateRoutine p = none := by
  obtain ⟨u, pe, ti, ta, an⟩ := p
  subst hf
  cases u with
  | none => rfl
  | some u =>
    cases ti with
    | none => simp [validateRoutine]
    | some ti => (simp [validateRoutine]; simpa using hs)

lemma validateTask_rejects_bad_status (p : TaskPayload) (s : String)
    (hf : p.status = some s) (hs : statusValues.contains s = false) :
    validateTask p = none := by
  obtain ⟨u, ti, no, du, st, po, od⟩ := p
  subst hf
  cases u with
  | none => rfl
  | some u =>
    cases ti with
    | none => rfl
    | some ti => (simp [validateTask]; simpa using hs)

lemma validateJournalEntry_rejects_bad_template (p : JournalEntryPayload) (s : String)
    (hf : p.template = some s) (hs : templateValues.contains s = false) :
    validateJournalEntry p = none := by
  obtain ⟨u, d, te, co, lo⟩ := p
  subst hf
  cases u with
  | none => rfl
  | some u =>
    cases d with
    | none => rfl
    | some d =>
      cases co with
      | none => simp [validateJournalEntry]
      | some co => (simp [validateJournalEntry]; simpa using hs)

lemma validateMood_rejects_bad_mood (p : MoodPayload) (s : String)
    (hf : p.mood = some s) (hs : moodValues.contains s = false) :
    validateMood p = none := by
  obtain ⟨u, d, m, re⟩ := p
  subst hf
  cases u with
  | none => rfl
  | some u =>
    cases d with
    | none => rfl
    | some d => (simp [validateMood]; simpa using hs)

lemma validateMoneyRecord_rejects_bad_type (p : MoneyRecordPayload) (s : String)
    (hf : p.type = some s) (hs : typeValues.contains s = false) :
    validateMoneyRecord p = none := by
  obtain ⟨u, d, ty, am, no⟩ := p
  subst hf
  cases u with
  | none => rfl
  | some u =>
    cases d with
    | none => rfl
    | some d =>
      cases am with
      | none => simp [validateMoneyRecord]
      | some am => (simp [validateMoneyRecord]; simpa using hs)

lemma validateChallenge_rejects_bad_category (p : ChallengePayload) (s : String)
    (hf : p.category = some s) (hs : categoryValues.contains s = false) :
    validateChallenge p = none := by
  obtain ⟨u, sl, ti, da, ca, de⟩ := p
  subst hf
  cases sl with
  | none => rfl
  | some sl =>
    cases ti with
    | none => rfl
    | some ti =>
      cases da with
      | none => rfl
      | some da =>
        cases de with
        | none => simp [validateChallenge]
        | some de => (simp [validateChallenge]; simpa using hs)

/-! ## Validation lemmas: defaults for omitted optional fields -/

lemma validateProfile_defaults (p : ProfilePayload) (r : Profile)
    (h : validateProfile p = some r) :
    (p.goals = none → r.goals = []) ∧
    (p.discipline_score = none → r.discipline_score = 0) ∧
    (p.theme = none → r.theme = "neon-blue") ∧
    (p.created_at = none → r.created_at = none) ∧
    (p.updated_at = none → r.updated_at = none) := by
  obtain ⟨u, n, a, g, d, t, c, up⟩ := p
  cases u with
  | none => exact absurd h (by simp [validateProfile])
  | some u =>
  cases n with
  | none => exact absurd h (by simp [validateProfile])
  | some n =>
  cases a with
  | none => exact absurd h (by simp [validateProfile])
  | some a =>
  unfold validateProfile at h
  simp only [Option.some_bind] at h
  split at h
  · obtain rfl := Option.some.inj h
    refine ⟨fun h1 => ?_, fun h2 => ?_, fun h3 => ?_, fun h4 => ?_, fun h5 => ?_⟩ <;>
      subst_vars <;> rfl
  · exact absurd h (by simp)

lemma validatePreferences_defaults (p : PreferencesPayload) (r : Preferences)
    (h : validatePreferences p = some r) :
    (p.theme_color = none → r.theme_color = "#00E5FF") ∧
    (p.glow_intensity = none → r.glow_intensity = 6 / 10) ∧
    (p.card_opacity = none → r.card_opacity = 2 / 10) ∧
    (p.font_family = none → r.font_family = "Inter") ∧
    (p.minimal_mode = none → r.minimal_mode = false) ∧
    (p.notifications = none → r.notifications = true) ∧
    (p.backup_enabled = none → r.backup_enabled = false) ∧
    (p.created_at = none → r.created_at = none) ∧
    (p.updated_at = none → r.updated_at = none) := by
  obtain ⟨u, tc, gi, co, ff, mm, nt, be, c, up⟩ := p
  cases u with
  | none => exact absurd h (by simp [validatePreferences])
  | some u =>
  unfold validatePreferences at h
  simp only [Option.some_bind] at h
  split at h
  · obtain rfl := Option.some.inj h
    refine ⟨fun h1 => ?_, fun h2 => ?_, fun h3 => ?_, fun h4 => ?_, fun h5 => ?_,
      fun h6 => ?_, fun h7 => ?_, fun h8 => ?_, fun h9 => ?_⟩ <;>
      subst_vars <;> rfl
  · exact absurd h (by simp)

lemma validateHabit_defaults (p : HabitPayload) (r : Habit)
    (h : validateHabit p = some r) :
    (p.icon = none → r.icon = "Star") ∧
    (p.glow_color = none → r.glow_color = "#7C3AED") ∧
    (p.schedule = none → r.schedule = []) ∧
    (p.streak = none → r.streak = 0) ∧
    (p.analytics = none → r.analytics = []) ∧
    (p.archived = none → r.archived = false) := by
  obtain ⟨u, n, ic, gc, sc, st, an, ar⟩ := p
  cases u with
  | none => exact absurd h (by simp [validateHabit])
  | some u =>
  cases n with
  | none => exact absurd h (by simp [validateHabit])
  | some n =>
  unfold validateHabit at h
  simp only [Option.some_bind] at h
  obtain rfl := Option.some.inj h
  refine ⟨fun h1 => ?_, fun h2 => ?_, fun h3 => ?_, fun h4 => ?_, fun h5 => ?_,
    fun h6 => ?_⟩ <;> subst_vars <;> rfl

lemma validateRoutine_defaults (p : RoutinePayload) (r : Routine)
    (h : validateRoutine p = some r) :
    (p.tasks = none → r.tasks = []) ∧
    (p.animated = none → r.animated = true) := by
  obtain ⟨u, pe, ti, ta, an⟩ := p
  cases u with
  | none => exact absurd h (by simp [validateRoutine])
  | some u =>
  cases pe with
  | none => exact absurd h (by simp [validateRoutine])
  | some pe =>
  cases ti with
  | none => exact absurd h (by simp [validateRoutine])
  | some ti =>
  unfold validateRoutine at h
  simp only [Option.some_bind] at h
  split at h
  · obtain rfl := Option.some.inj h
    refine ⟨fun h1 => ?_, fun h2 => ?_⟩ <;> subst_vars <;> rfl
  · exact absurd h (by simp)

lemma validateTask_defaults (p : TaskPayload) (r : Task)
    (h : validateTask p = some r) :
    (p.notes = none → r.notes = none) ∧
    (p.due_date = none → r.due_date = none) ∧
    (p.status = none → r.status = "todo") ∧
    (p.pomodoro_minutes = none → r.pomodoro_minutes = some 25) ∧
    (p.order = none → r.order = 0) := by
  obtain ⟨u, ti, no, du, st, po, od⟩ := p
  cases u with
  | none => exact absurd h (by simp [validateTask])
  | some u =>
  cases ti with
  | none => exact absurd h (by simp [validateTask])
  | some ti =>
  unfold validateTask at h
  simp only [Option.some_bind] at h
  split at h
  · obtain rfl := Option.some.inj h
    refine ⟨fun h1 => ?_, fun h2 => ?_, fun h3 => ?_, fun h4 => ?_, fun h5 => ?_⟩ <;>
      subst_vars <;> rfl
  · exact absurd h (by simp)

lemma validateJournalEntry_defaults (p : JournalEntryPayload) (r : JournalEntry)
    (h : validateJournalEntry p = some r) :
    (p.template = none → r.template = "free") ∧
    (p.locked = none → r.locked = false) := by
  obtain ⟨u, d, te, co, lo⟩ := p
  cases u with
  | none => exact absurd h (by simp [validateJournalEntry])
  | some u =>
  cases d with
  | none => exact absurd h (by simp [validateJournalEntry])
  | some d =>
  cases co with
  | none => exact absurd h (by simp [validateJournalEntry])
  | some co =>
  unfold validateJournalEntry at h
  simp only [Option.some_bind] at h
  split at h
  · obtain rfl := Option.some.inj h
    refine ⟨fun h1 => ?_, fun h2 => ?_⟩ <;> subst_vars <;> rfl
  · exact absurd h (by simp)

lemma validateMood_defaults (p : MoodPayload) (r : Mood)
    (h : validateMood p = some r) :
    p.reason = none → r.reason = none := by
  obtain ⟨u, d, m, re⟩ := p
  cases u with
  | none => exact absurd h (by simp [validateMood])
  | some u =>
  cases d with
  | none => exact absurd h (by simp [validateMood])
  | some d =>
  cases m with
  | none => exact absurd h (by simp [validateMood])
  | some m =>
  unfold validateMood at h
  simp only [Option.some_bind] at h
  split at h
  · obtain rfl := Option.some.inj h
    intro h1; subst h1; rfl
  · exact absurd h (by simp)

lemma validateMoneyRecord_defaults (p : MoneyRecordPayload) (r : MoneyRecord)
    (h : validateMoneyRecord p = some r) :
    p.note = none → r.note = none := by
  obtain ⟨u, d, ty, am, no⟩ := p
  cases u with
  | none => exact absurd h (by simp [validateMoneyRecord])
  | some u =>
  cases d with
  | none => exact absurd h (by simp [validateMoneyRecord])
  | some d =>
  cases ty with
  | none => exact absurd h (by simp [validateMoneyRecord])
  | some ty =>
  cases am with
  | none => exact absurd h (by simp [validateMoneyRecord])
  | some am =>
  unfold validateMoneyRecord at h
  simp only [Option.some_bind] at h
  split at h
  · obtain rfl := Option.some.inj h
    intro h1; subst h1; rfl
  · exact absurd h (by simp)

lemma validateSavingsGoal_defaults (p : SavingsGoalPayload) (r : SavingsGoal)
    (h : validateSavingsGoal p = some r) :
    p.progress = none → r.progress = 0 := by
  obtain ⟨u, n, ta, pr⟩ := p
  cases u with
  | none => exact absurd h (by simp [validateSavingsGoal])
  | some u =>
  cases n with
  | none => exact absurd h (by simp [validateSavingsGoal])
  | some n =>
  cases ta with
  | none => exact absurd h (by simp [validateSavingsGoal])
  | some ta =>
  unfold validateSavingsGoal at h
  simp only [Option.some_bind] at h
  obtain rfl := Option.some.inj h
  intro h1; subst h1; rfl

lemma validateFitnessMetric_defaults (p : FitnessMetricPayload) (r : FitnessMetric)
    (h : validateFitnessMetric p = some r) :
    (p.weight = none → r.weight = none) ∧
    (p.steps = none → r.steps = none) ∧
    (p.hydration_liters = none → r.hydration_liters = none) ∧
    (p.skincare = none → r.skincare = []) ∧
    (p.gym_routine = none → r.gym_routine = []) ∧
    (p.checklist = none → r.checklist = []) := by
  obtain ⟨u, d, we, st, hy, sk, gy, ch⟩ := p
  cases u with
  | none => exact absurd h (by simp [validateFitnessMetric])
  | some u =>
  cases d with
  | none => exact absurd h (by simp [validateFitnessMetric])
  | some d =>
  unfold validateFitnessMetric at h
  simp only [Option.some_bind] at h
  obtain rfl := Option.some.inj h
  refine ⟨fun h1 => ?_, fun h2 => ?_, fun h3 => ?_, fun h4 => ?_, fun h5 => ?_,
    fun h6 => ?_⟩ <;> subst_vars <;> rfl

lemma validateChallenge_defaults (p : ChallengePayload) (r : Challenge)
    (h : validateChallenge p = some r) :
    p.user_id = none → r.user_id = none := by
  obtain ⟨u, sl, ti, da, ca, de⟩ := p
  cases sl with
  | none => exact absurd h (by simp [validateChallenge])
  | some sl =>
  cases ti with
  | none => exact absurd h (by simp [validateChallenge])
  | some ti =>
  cases da with
  | none => exact absurd h (by simp [validateChallenge])
  | some da =>
  cases ca with
  | none => exact absurd h (by simp [validateChallenge])
  | some ca =>
  cases de with
  | none => exact absurd h (by simp [validateChallenge])
  | some de =>
  unfold validateChallenge at h
  simp only [Option.some_bind] at h
  split at h
  · obtain rfl := Option.some.inj h
    intro h1; subst h1; rfl
  · exact absurd h (by simp)

lemma validateCoachPlan_defaults (p : CoachPlanPayload) (r : CoachPlan)
    (h : validateCoachPlan p = some r) :
    (p.focus = none → r.focus = []) ∧
    (p.actions = none → r.actions = []) := by
  obtain ⟨u, d, su, fo, ac⟩ := p
  cases u with
  | none => exact absurd h (by simp [validateCoachPlan])
  | some u =>
  cases d with
  | none => exact absurd h (by simp [validateCoachPlan])
  | some d =>
  cases su with
  | none => exact absurd h (by simp [validateCoachPlan])
  | some su =>
  unfold validateCoachPlan at h
  simp only [Option.some_bind] at h
  obtain rfl := Option.some.inj h
  refine ⟨fun h1 => ?_, fun h2 => ?_⟩ <;> subst_vars <;> rfl

/-! ## Validation lemmas: bounded numeric fields of Preferences -/

lemma validatePreferences_rejects_glow_out (p : PreferencesPayload) (g : ℚ)
    (hf : p.glow_intensity = some g) (hout : g < 0 ∨ 1 < g) :
    validatePreferences p = none := by
  obtain ⟨u, tc, gi, co, ff, mm, nt, be, c, up⟩ := p
  subst hf
  cases u with
  | none => rfl
  | some u =>
    unfold validatePreferences
    simp only [Option.some_bind]
    split
    · rename_i hcond
      exfalso
      rcases hout with ho | ho
      · exact absurd hcond.1 (not_le.mpr ho)
      · exact absurd hcond.2.1 (not_le.mpr ho)
    · rfl

lemma validatePreferences_rejects_opacity_out (p : PreferencesPayload) (c : ℚ)
    (hf : p.card_opacity = some c) (hout : c < 0 ∨ 1 < c) :
    validatePreferences p = none := by
  obtain ⟨u, tc, gi, co, ff, mm, nt, be, ca, up⟩ := p
  subst hf
  cases u with
  | none => rfl
  | some u =>
    unfold validatePreferences
    simp only [Option.some_bind]
    split
    · rename_i hcond
      exfalso
      rcases hout with ho | ho
      · exact absurd hcond.2.2.1 (not_le.mpr ho)
      · exact absurd hcond.2.2.2 (not_le.mpr ho)
    · rfl

/-! ## Theorems about validation -/

/-- C3: glow_intensity and card_opacity values strictly below 0 or
strictly above 1 are rejected, and the boundary values 0 and 1 are
accepted, so the accepted range is the closed interval [0,1]. -/
theorem preferences_bounds_closed_interval :
    (∀ (p : PreferencesPayload) (g : ℚ), p.glow_intensity = some g →
        g < 0 ∨ 1 < g → validatePreferences p = none)
    ∧ (∀ (p : PreferencesPayload) (c : ℚ), p.card_opacity = some c →
        c < 0 ∨ 1 < c → validatePreferences p = none)
    ∧ validatePreferences
        ⟨some "u", none, some 0, some 1, none, none, none, none, none, none⟩ =
        some ⟨"u", "#00E5FF", 0, 1, "Inter", false, true, false, none, none⟩
    ∧ validatePreferences
        ⟨some "u", none, some 1, some 0, none, none, none, none, none, none⟩ =
        some ⟨"u", "#00E5FF", 1, 0, "Inter", false, true, false, none, none⟩ :=
  ⟨validatePreferences_rejects_glow_out, validatePreferences_rejects_opacity_out,
   by norm_num [validatePreferences], by norm_num [validatePreferences]⟩

/-- Witness for C3: the out-of-range value 2 as glow_intensity is
rejected.  -/
theorem preferences_bounds_closed_interval_witness :
    ((⟨some "u", none, some 2, none, none, none, none, none, none, none⟩ :
        PreferencesPayload).glow_intensity = some 2 ∧ ((2 : ℚ) < 0 ∨ (1 : ℚ) < 2))
    ∧ validatePreferences
        ⟨some "u", none, some 2, none, none, none, none, none, none, none⟩ = none :=
  ⟨⟨rfl, Or.inr (by norm_num)⟩,
   preferences_bounds_closed_interval.1
     ⟨some "u", none, some 2, none, none, none, none, none, none, none⟩ 2 rfl
     (Or.inr (by norm_num))⟩

/-- C4: for every record kind, a validated record carries the documented
default in every optional field that was absent from the payload; in
particular Profile.theme defaults to "neon-blue" and
Task.pomodoro_minutes defaults to 25. -/
theorem optional_fields_get_documented_defaults :
    (∀ (p : ProfilePayload) (r : Profile), validateProfile p = some r →
      (p.goals = none → r.goals = []) ∧
      (p.discipline_score = none → r.discipline_score = 0) ∧
      (p.theme = none → r.theme = "neon-blue") ∧
      (p.created_at = none → r.created_at = none) ∧
      (p.updated_at = none → r.updated_at = none))
    ∧ (∀ (p : PreferencesPayload) (r : Preferences), validatePreferences p = some r →
      (p.theme_color = none → r.theme_color = "#00E5FF") ∧
      (p.glow_intensity = none → r.glow_intensity = 6 / 10) ∧
      (p.card_opacity = none → r.card_opacity = 2 / 10) ∧
      (p.font_family = none → r.font_family = "Inter") ∧
      (p.minimal_mode = none → r.minimal_mode = false) ∧
      (p.notifications = none → r.notifications = true) ∧
      (p.backup_enabled = none → r.backup_enabled = false) ∧
      (p.created_at = none → r.created_at = none) ∧
      (p.updated_at = none → r.updated_at = none))
    ∧ (∀ (p : HabitPayload) (r : Habit), validateHabit p = some r →
      (p.icon = none → r.icon = "Star") ∧
      (p.glow_color = none → r.glow_color = "#7C3AED") ∧
      (p.schedule = none → r.schedule = []) ∧
      (p.streak = none → r.streak = 0) ∧
      (p.analytics = none → r.analytics = []) ∧
      (p.archived = none → r.archived = false))
    ∧ (∀ (p : RoutinePayload) (r : Routine), validateRoutine p = some r →
      (p.tasks = none → r.tasks = []) ∧
      (p.animated = none → r.animated = true))
    ∧ (∀ (p : TaskPayload) (r : Task), validateTask p = some r →
      (p.notes = none → r.notes = none) ∧
      (p.due_date = none → r.due_date = none) ∧
      (p.status = none → r.status = "todo") ∧
      (p.pomodoro_minutes = none → r.pomodoro_minutes = some 25) ∧
      (p.order = none → r.order = 0))
    ∧ (∀ (p : JournalEntryPayload) (r : JournalEntry), validateJournalEntry p = some r →
      (p.template = none → r.template = "free") ∧
      (p.locked = none → r.locked = false))
    ∧ (∀ (p : MoodPayload) (r : Mood), validateMood p = some r →
      p.reason = none → r.reason = none)
    ∧ (∀ (p : MoneyRecordPayload) (r : MoneyRecord), validateMoneyRecord p = some r →
      p.note = none → r.note = none)
    ∧ (∀ (p : SavingsGoalPayload) (r : SavingsGoal), validateSavingsGoal p = some r →
      p.progress = none → r.progress = 0)
    ∧ (∀ (p : FitnessMetricPayload) (r : FitnessMetric), validateFitnessMetric p = some r →
      (p.weight = none → r.weight = none) ∧
      (p.steps = none → r.steps = none) ∧
      (p.hydration_liters = none → r.hydration_liters = none) ∧
      (p.skincare = none → r.skincare = []) ∧
      (p.gym_routine = none → r.gym_routine = []) ∧
      (p.checklist = none → r.checklist = []))
    ∧ (∀ (p : ChallengePayload) (r : Challenge), validateChallenge p = some r →
      p.user_id = none → r.user_id = none)
    ∧ (∀ (p : CoachPlanPayload) (r : CoachPlan), validateCoachPlan p = some r →
      (p.focus = none → r.focus = []) ∧
      (p.actions = none → r.actions = [])) :=
  ⟨validateProfile_defaults, validatePreferences_defaults, validateHabit_defaults,
   validateRoutine_defaults, validateTask_defaults, validateJournalEntry_defaults,
   validateMood_defaults, validateMoneyRecord_defaults, validateSavingsGoal_defaults,
   validateFitnessMetric_defaults, validateChallenge_defaults, validateCoachPlan_defaults⟩

/-- Witness for C4: a Profile payload carrying only the mandatory fields
gets theme "neon-blue", and a Task payload carrying only the mandatory
fields gets pomodoro_minutes 25. -/
theorem optional_fields_get_documented_defaults_witness :
    (validateProfile ⟨some "u", some "n", some "adult", none, none, none, none, none⟩ =
        some ⟨"u", "n", "adult", [], 0, "neon-blue", none, none⟩
      ∧ (⟨"u", "n", "adult", [], 0, "neon-blue", none, none⟩ : Profile).theme = "neon-blue")
    ∧ (validateTask ⟨some "u", some "t", none, none, none, none, none⟩ =
        some ⟨"u", "t", none, none, "todo", some 25, 0⟩
      ∧ (⟨"u", "t", none, none, "todo", some 25, 0⟩ : Task).pomodoro_minutes = some 25) :=
  ⟨⟨by norm_num [validateProfile, ageGroupValues],
    (optional_fields_get_documented_defaults.1
      ⟨some "u", some "n", some "adult", none, none, none, none, none⟩
      ⟨"u", "n", "adult", [], 0, "neon-blue", none, none⟩
      (by norm_num [validateProfile, ageGroupValues])).2.2.1 rfl⟩,
   ⟨by norm_num [validateTask, statusValues],
    ((optional_fields_get_documented_defaults.2.2.2.2.1
      ⟨some "u", some "t", none, none, none, none, none⟩
      ⟨"u", "t", none, none, "todo", some 25, 0⟩
      (by norm_num [validateTask, statusValues])).2.2.2.1 rfl)⟩⟩

/-- C5: every enumerated field rejects values outside its fixed set,
comparing case-sensitively: "Stressed" is rejected for a Mood record
while "stressed" is accepted. -/
theorem enum_fields_case_sensitive :
    (∀ (p : ProfilePayload) (s : String), p.age_group = some s →
        ageGroupValues.contains s = false → validateProfile p = none)
    ∧ (∀ (p : RoutinePayload) (s : String), p.period = some s →
        periodValues.contains s = false → validateRoutine p = none)
    ∧ (∀ (p : TaskPayload) (s : String), p.status = some s →
        statusValues.contains s = false → validateTask p = none)
    ∧ (∀ (p : JournalEntryPayload) (s : String), p.template = some s →
        templateValues.contains s = false → validateJournalEntry p = none)
    ∧ (∀ (p : MoodPayload) (s : String), p.mood = some s →
        moodValues.contains s = false → validateMood p = none)
    ∧ (∀ (p : MoneyRecordPayload) (s : String), p.type = some s →
        typeValues.contains s = false → validateMoneyRecord p = none)
    ∧ (∀ (p : ChallengePayload) (s : String), p.category = some s →
        categoryValues.contains s = false → validateChallenge p = none)
    ∧ validateMood ⟨some "u", some "2026-01-01", some "Stressed", none⟩ = none
    ∧ validateMood ⟨some "u", some "2026-01-01", some "stressed", none⟩ =
        some ⟨"u", "2026-01-01", "stressed", none⟩ :=
  ⟨validateProfile_rejects_bad_ageGroup, validateRoutine_rejects_bad_period,
   validateTask_rejects_bad_status, validateJournalEntry_rejects_bad_template,
   validateMood_rejects_bad_mood, validateMoneyRecord_rejects_bad_type,
   validateChallenge_rejects_bad_category, rfl, rfl⟩

/-- Witness for C5: the differently-cased value "Stressed" is outside
the mood enumeration and the payload carrying it is rejected. -/
theorem enum_fields_case_sensitive_witness :
    ((⟨some "u", some "2026-01-01", some "Stressed", none⟩ : MoodPayload).mood =
        some "Stressed"
      ∧ moodValues.contains "Stressed" = false)
    ∧ validateMood ⟨some "u", some "2026-01-01", some "Stressed", none⟩ = none :=
  ⟨⟨rfl, rfl⟩,
   enum_fields_case_sensitive.2.2.2.2.1
     ⟨some "u", some "2026-01-01", some "Stressed", none⟩ "Stressed" rfl rfl⟩

/-- C6 counterexample: validation does not reject the empty string as a
user_id (a Preferences payload with user_id "" is accepted), and the
Challenge kind does not even require the field. -/
theorem userId_claim_counterexample :
    validatePreferences ⟨some "", none, none, none, none, none, none, none, none, none⟩ =
      some ⟨"", "#00E5FF", 6 / 10, 2 / 10, "Inter", false, true, false, none, none⟩
    ∧ validateChallenge ⟨none, some "discipline-7", some "7 Day Discipline", some 7,
        some "discipline", some "Build unstoppable momentum in a week."⟩ =
      some ⟨none, "discipline-7", "7 Day Discipline", 7, "discipline",
        "Build unstoppable momentum in a week."⟩ :=
  ⟨by norm_num [validatePreferences], by norm_num [validateChallenge, categoryValues]⟩

/-- C6 (amended): for every record kind except Challenge the user_id
field is required — a payload with no user_id is rejected — while
Challenge accepts an absent user_id; non-emptiness is not checked, and
the empty string is accepted as a user_id. -/
theorem userId_required_not_nonempty :
    (∀ p : ProfilePayload, p.user_id = none → validateProfile p = none)
    ∧ (∀ p : PreferencesPayload, p.user_id = none → validatePreferences p = none)
    ∧ (∀ p : HabitPayload, p.user_id = none → validateHabit p = none)
    ∧ (∀ p : RoutinePayload, p.user_id = none → validateRoutine p = none)
    ∧ (∀ p : TaskPayload, p.user_id = none → validateTask p = none)
    ∧ (∀ p : JournalEntryPayload, p.user_id = none → validateJournalEntry p = none)
    ∧ (∀ p : MoodPayload, p.user_id = none → validateMood p = none)
    ∧ (∀ p : MoneyRecordPayload, p.user_id = none → validateMoneyRecord p = none)
    ∧ (∀ p : SavingsGoalPayload, p.user_id = none → validateSavingsGoal p = none)
    ∧ (∀ p : FitnessMetricPayload, p.user_id = none → validateFitnessMetric p = none)
    ∧ (∀ p : CoachPlanPayload, p.user_id = none → validateCoachPlan p = none)
    ∧ validateChallenge ⟨none, some "discipline-7", some "7 Day Discipline", some 7,
        some "discipline", some "Build unstoppable momentum in a week."⟩ =
      some ⟨none, "discipline-7", "7 Day Discipline", 7, "discipline",
        "Build unstoppable momentum in a week."⟩
    ∧ validateMood ⟨some "", some "2026-01-01", some "calm", none⟩ =
        some ⟨"", "2026-01-01", "calm", none⟩ :=
  ⟨validateProfile_requires_userId, validatePreferences_requires_userId,
   validateHabit_requires_userId, validateRoutine_requires_userId,
   validateTask_requires_userId, validateJournalEntry_requires_userId,
   validateMood_requires_userId, validateMoneyRecord_requires_userId,
   validateSavingsGoal_requires_userId, validateFitnessMetric_requires_userId,
   validateCoachPlan_requires_userId,
   by norm_num [validateChallenge, categoryValues],
   by norm_num [validateMood, moodValues]⟩

/-- Witness for C6 (amended): a Mood payload with no user_id is
rejected. -/
theorem userId_required_not_nonempty_witness :
    ((⟨none, some "2026-01-01", some "calm", none⟩ : MoodPayload).user_id = none)
    ∧ validateMood ⟨none, some "2026-01-01", some "calm", none⟩ = none :=
  ⟨rfl, userId_required_not_nonempty.2.2.2.2.2.2.1
    ⟨none, some "2026-01-01", some "calm", none⟩ rfl⟩

end SelfMastery
